import Mathlib

/-
Verification of the Kaf_Convey digital-twin core against its specification.

The development shallowly embeds the state-derivation and scenario-simulation
engine: the DigitalTwin state model (src/digital_twin/twin_core.py), the
AnalyticsEngine (src/digital_twin/analytics.py) and the ConveyorSimulator
(src/iot/simulation.py), with the static threshold table from
src/config/modbus_config.py.

Python floats are idealized as exact rationals (and as reals where the code
takes non-integer powers); Python dicts with the fixed operational-parameter
keys become a structure together with an explicit string-keyed view
(hasParamKey / getParam / setParam) wherever the code indexes the dict by a
runtime string, so that a lookup of a key absent from the dict (Python
KeyError) is visible as an Option failure.  Wall-clock timestamps and
message-string formatting are omitted; alert records keep their type and
severity fields.
-/

namespace KafConvey

/-! ### Threshold table, src/config/modbus_config.py SENSOR_THRESHOLDS -/

def temperature_warning : ℚ := 80
def temperature_critical : ℚ := 90
def vibration_warning : ℚ := 5
def vibration_critical : ℚ := 7
def current_warning : ℚ := 15

/-! ### Sensor snapshots

`update_state` reads the four readings with `sensor_data.get(key, 0)`;
a missing reading is a `none` here and defaults to 0 at the read site. -/

structure SensorSnapshot where
  conveyor_speed : Option ℚ := none
  motor_temperature : Option ℚ := none
  vibration_level : Option ℚ := none
  motor_current : Option ℚ := none
deriving DecidableEq

/-! ### Operational parameters, the dict built in DigitalTwin.__init__ -/

structure OperationalParameters where
  current_speed : ℚ
  motor_temperature : ℚ
  vibration_level : ℚ
  motor_current : ℚ
  efficiency : ℚ
  uptime_hours : ℚ
  items_processed : ℚ
  defects_count : ℚ
deriving DecidableEq

def initialParameters : OperationalParameters :=
  { current_speed := 0, motor_temperature := 0, vibration_level := 0
    motor_current := 0, efficiency := 100, uptime_hours := 0
    items_processed := 0, defects_count := 0 }

/-- The key set of the operational_parameters dict (note: the speed key is
named current_speed, not conveyor_speed). -/
def hasParamKey (k : String) : Bool :=
  k == "current_speed" || k == "motor_temperature" || k == "vibration_level" ||
  k == "motor_current" || k == "efficiency" || k == "uptime_hours" ||
  k == "items_processed" || k == "defects_count"

/-- Dict-style read `params[k]`; `none` models a Python KeyError. -/
def getParam (p : OperationalParameters) (k : String) : Option ℚ :=
  if k = "current_speed" then some p.current_speed
  else if k = "motor_temperature" then some p.motor_temperature
  else if k = "vibration_level" then some p.vibration_level
  else if k = "motor_current" then some p.motor_current
  else if k = "efficiency" then some p.efficiency
  else if k = "uptime_hours" then some p.uptime_hours
  else if k = "items_processed" then some p.items_processed
  else if k = "defects_count" then some p.defects_count
  else none

/-- Dict-style write `params[k] = v` for the known keys (all call sites are
guarded by `hasParamKey` or by a successful `getParam`). -/
def setParam (p : OperationalParameters) (k : String) (v : ℚ) : OperationalParameters :=
  if k = "current_speed" then { p with current_speed := v }
  else if k = "motor_temperature" then { p with motor_temperature := v }
  else if k = "vibration_level" then { p with vibration_level := v }
  else if k = "motor_current" then { p with motor_current := v }
  else if k = "efficiency" then { p with efficiency := v }
  else if k = "uptime_hours" then { p with uptime_hours := v }
  else if k = "items_processed" then { p with items_processed := v }
  else if k = "defects_count" then { p with defects_count := v }
  else p

/-! ### Alerts and twin state -/

structure Alert where
  type : String
  severity : String
deriving DecidableEq

structure TwinState where
  params : OperationalParameters
  alerts : List Alert
  operating_mode : String
deriving DecidableEq

def initialTwin : TwinState :=
  { params := initialParameters, alerts := [], operating_mode := "NORMAL" }

/-- Python int(q): truncation toward zero. -/
def pyInt (q : ℚ) : ℤ :=
  if 0 ≤ q then ⌊q⌋ else ⌈q⌉

/-- DigitalTwin._calculate_efficiency: sequential threshold penalties on a
base of 100, floored at 60, written into the efficiency field. -/
def calculateEfficiency (p : OperationalParameters) : OperationalParameters :=
  let base : ℚ := 100
  let base := if p.motor_temperature > temperature_warning then
      base - (p.motor_temperature - temperature_warning) * 0.5 else base
  let base := if p.vibration_level > vibration_warning then
      base - (p.vibration_level - vibration_warning) * 2.0 else base
  let base := if p.motor_current > current_warning then
      base - (p.motor_current - current_warning) * 1.5 else base
  { p with efficiency := max 60 base }

/-- DigitalTwin._check_anomalies: the active alert list is rebuilt from
scratch from the current parameters. -/
def checkAnomalies (p : OperationalParameters) : List Alert :=
  (if p.motor_temperature > temperature_critical then
      [{ type := "CRITICAL_TEMPERATURE", severity := "HIGH" }] else []) ++
  (if p.vibration_level > vibration_critical then
      [{ type := "HIGH_VIBRATION", severity := "HIGH" }] else []) ++
  (if p.efficiency < 75 then
      [{ type := "LOW_EFFICIENCY", severity := "MEDIUM" }] else [])

/-- DigitalTwin._update_statistics. -/
def updateStatistics (p : OperationalParameters) : OperationalParameters :=
  { p with
    uptime_hours := p.uptime_hours + 0.0002778
    items_processed := p.items_processed + (pyInt (p.current_speed * 0.1) : ℚ) }

/-- DigitalTwin.update_state: merge the snapshot (missing readings default
to 0), recompute efficiency, rebuild alerts, advance statistics. -/
def updateState (t : TwinState) (s : SensorSnapshot) : TwinState :=
  let p0 := { t.params with
    current_speed := s.conveyor_speed.getD 0
    motor_temperature := s.motor_temperature.getD 0
    vibration_level := s.vibration_level.getD 0
    motor_current := s.motor_current.getD 0 }
  let p1 := calculateEfficiency p0
  { t with params := updateStatistics p1, alerts := checkAnomalies p1 }

/-! ### AnalyticsEngine, src/digital_twin/analytics.py -/

structure OEEResult where
  oee : ℚ
  availability : ℚ
  performance : ℚ
  quality : ℚ
deriving DecidableEq

/-- AnalyticsEngine._calculate_availability. -/
def calculateAvailability (t : TwinState) : ℚ :=
  let planned_production_time : ℚ := 24 * 60
  let downtime : ℚ := (t.alerts.length : ℚ) * 5
  max 0 ((planned_production_time - downtime) / planned_production_time)

/-- AnalyticsEngine._calculate_performance.  The source computes
`max(0.1, 1.0 / current_speed)`: the division happens before the floor is
applied, so `current_speed = 0` raises ZeroDivisionError (`none` here). -/
def calculatePerformance (p : OperationalParameters) : Option ℚ :=
  if p.current_speed = 0 then none
  else
    let actual_cycle_time := max 0.1 (1 / p.current_speed)
    some (1 / actual_cycle_time)

/-- AnalyticsEngine._calculate_quality. -/
def calculateQuality (p : OperationalParameters) : ℚ :=
  if p.items_processed = 0 then 1
  else (p.items_processed - p.defects_count) / p.items_processed

/-- AnalyticsEngine.calculate_oee; propagates the performance failure. -/
def calculateOEE (t : TwinState) : Option OEEResult :=
  match calculatePerformance t.params with
  | none => none
  | some performance =>
    let availability := calculateAvailability t
    let quality := calculateQuality t.params
    some { oee := availability * performance * quality * 100
           availability := availability * 100
           performance := performance * 100
           quality := quality * 100 }

/-- Python slice data_points[-window:] (for window = 0 this is the whole
list, not the empty one). -/
def pyTailSlice (xs : List ℚ) (w : Nat) : List ℚ :=
  if w = 0 then xs else xs.drop (xs.length - w)

/-- Least-squares slope of np.polyfit(arange(n), ys, 1), idealized over ℚ. -/
def slopeOf (ys : List ℚ) : ℚ :=
  let n : ℚ := ys.length
  let xs : List ℚ := (List.range ys.length).map (fun i => (i : ℚ))
  let sx := xs.sum
  let sy := ys.sum
  let sxy := ((xs.zip ys).map (fun q => q.1 * q.2)).sum
  let sxx := (xs.map (fun x => x * x)).sum
  (n * sxy - sx * sy) / (n * sxx - sx * sx)

/-- AnalyticsEngine.trend_analysis. -/
def trendAnalysis (dataPoints : List ℚ) (window : Nat := 10) : String :=
  if dataPoints.length < window then "INSUFFICIENT_DATA"
  else
    let slope := slopeOf (pyTailSlice dataPoints window)
    if slope > 0.1 then "INCREASING"
    else if slope < -0.1 then "DECREASING"
    else "STABLE"

/-! ### ConveyorSimulator, src/iot/simulation.py

SimulationResult without the wall-clock timestamp and duration fields; the
parameter dicts of the different scenarios have different key sets in the
source and so become different structures here. -/

structure SimResult (α : Type) where
  scenario_name : String
  parameters : α
  warnings : List String
  recommendations : List String
  success : Bool
deriving DecidableEq

/-- ConveyorSimulator.simulate_component_failure.  The controller branch
indexes the copied state dict with the key conveyor_speed, which the dict
does not contain (its speed key is current_speed), so that branch fails
with a KeyError (`none`); an unrecognized component name falls through all
branches and yields the baseline with empty warnings. -/
def simulateComponentFailure (component : String) (severity : ℚ)
    (b : OperationalParameters) : Option (SimResult OperationalParameters) :=
  let effects : Option (OperationalParameters × List String × List String) :=
    if component = "motor" then
      some ({ b with motor_temperature := b.motor_temperature + 20 * severity
                     motor_current := b.motor_current + 5 * severity
                     efficiency := b.efficiency - 25 * severity },
            ["Симуляция отказа двигателя"],
            ["Немедленно остановить конвейер", "Вызвать сервисного инженера"])
    else if component = "bearing" then
      some ({ b with vibration_level := b.vibration_level + 3 * severity
                     motor_temperature := b.motor_temperature + 10 * severity
                     efficiency := b.efficiency - 15 * severity },
            ["Симуляция отказа подшипника"],
            ["Плановое обслуживание в течение 24 часов"])
    else if component = "sensor" then
      some ({ b with efficiency := b.efficiency - 10 * severity },
            ["Симуляция отказа датчика"],
            ["Калибровка системы датчиков"])
    else if component = "controller" then
      match getParam b "conveyor_speed" with
      | none => none
      | some v =>
        let p := setParam b "conveyor_speed" (v * (1 - 0.3 * severity))
        some ({ p with efficiency := p.efficiency - 20 * severity },
              ["Симуляция отказа контроллера"],
              ["Перезагрузка системы управления"])
    else some (b, [], [])
  match effects with
  | none => none
  | some (p, warns, recs) =>
    some { scenario_name := "failure_" ++ component
           parameters := { p with efficiency := max 0 p.efficiency
                                  vibration_level := max 0 p.vibration_level }
           warnings := warns
           recommendations := recs
           success := false }

/-- A what-if scenario configuration dict; absent optional entries are
`none` and take their documented defaults at the read sites. -/
structure ScenarioConfig where
  name : Option String := none
  changes : List (String × ℚ) := []
  duration_hours : Option ℚ := none
deriving DecidableEq

/-- simulation.create_scenario_template (note its speed key conveyor_speed,
which is not a key of the operational state). -/
def createScenarioTemplate : ScenarioConfig :=
  { name := some "Новый сценарий"
    changes := [("conveyor_speed", 0), ("motor_temperature", 0), ("vibration_level", 0)]
    duration_hours := some 1 }

/-- The change-application loop of simulate_what_if_scenario: an entry whose
key is present in the copied state dict overwrites it, any other entry is
skipped. -/
def applyChanges (b : OperationalParameters)
    (changes : List (String × ℚ)) : OperationalParameters :=
  changes.foldl (fun acc kv => if hasParamKey kv.1 then setParam acc kv.1 kv.2 else acc) b

/-- ConveyorSimulator._simulate_long_term_effects: (efficiency,
vibration_level, motor_temperature) after degradation. -/
def simulateLongTermEffects (p : OperationalParameters) (duration_hours : ℚ) : ℚ × ℚ × ℚ :=
  let degradation_rate : ℚ := 0.01
  (p.efficiency * (1 - degradation_rate * duration_hours),
   p.vibration_level * (1 + degradation_rate * duration_hours * 0.5),
   p.motor_temperature * (1 + degradation_rate * duration_hours * 0.1))

/-- ConveyorSimulator._analyze_scenario_results. -/
def analyzeScenarioResults (p : OperationalParameters) : Bool :=
  decide (p.motor_temperature ≤ temperature_critical) &&
  decide (p.vibration_level ≤ vibration_critical) &&
  decide (p.efficiency ≥ 60)

/-- ConveyorSimulator._generate_scenario_recommendations (it ignores the
scenario configuration argument). -/
def whatIfRecommendations (p : OperationalParameters) : List String :=
  (if p.efficiency < 80 then ["Рассмотреть оптимизацию рабочих параметров"] else []) ++
  (if p.motor_temperature > 80 then ["Увеличить охлаждение двигателя"] else [])

/-- ConveyorSimulator.simulate_what_if_scenario. -/
def simulateWhatIf (cfg : ScenarioConfig) (b : OperationalParameters) :
    SimResult OperationalParameters :=
  let p := applyChanges b cfg.changes
  let duration_hours := cfg.duration_hours.getD 1
  let lt := simulateLongTermEffects p duration_hours
  let p2 := { p with efficiency := lt.1, vibration_level := lt.2.1, motor_temperature := lt.2.2 }
  let success := analyzeScenarioResults p2
  { scenario_name := cfg.name.getD "what_if_scenario"
    parameters := p2
    warnings := if success then [] else ["Сценарий привел к критическим параметрам"]
    recommendations := whatIfRecommendations p2
    success := success }

/-- ConveyorSimulator._calculate_maintenance_roi (the duration argument is
unused in the source as well). -/
def maintenanceROI (maintenance_type : String) (_duration_hours : ℚ)
    (improved b : OperationalParameters) : ℚ × ℚ × ℚ :=
  let cost_factor : ℚ :=
    if maintenance_type = "preventive" then 1.0
    else if maintenance_type = "corrective" then 1.5
    else if maintenance_type = "predictive" then 1.2
    else 1.0
  let cost := 1000 * cost_factor
  let benefit := (improved.efficiency - b.efficiency) * 100
  let roi := if cost > 0 then (benefit - cost) / cost * 100 else 0
  (cost, benefit, roi)

/-- ConveyorSimulator.simulate_maintenance_impact. -/
def simulateMaintenanceImpact (maintenance_type : String) (duration_hours : ℚ)
    (b : OperationalParameters) : SimResult OperationalParameters :=
  let improved :=
    if maintenance_type = "preventive" then
      { b with vibration_level := b.vibration_level * 0.7
               efficiency := min 100 (b.efficiency + 10) }
    else if maintenance_type = "corrective" then
      { b with vibration_level := b.vibration_level * 0.5
               motor_temperature := b.motor_temperature - 5
               efficiency := min 100 (b.efficiency + 15) }
    else if maintenance_type = "predictive" then
      { b with vibration_level := b.vibration_level * 0.6
               motor_temperature := b.motor_temperature - 3
               efficiency := min 100 (b.efficiency + 12) }
    else b
  let recsBase : List String :=
    if maintenance_type = "preventive" then ["Плановое ТО улучшит производительность"]
    else if maintenance_type = "corrective" then ["Корректирующее ТО устранит текущие проблемы"]
    else if maintenance_type = "predictive" then ["Прогнозное ТО предотвратит будущие отказы"]
    else []
  let _roi := maintenanceROI maintenance_type duration_hours improved b
  { scenario_name := "maintenance_" ++ maintenance_type
    parameters := improved
    warnings := []
    recommendations := recsBase ++ ["Прогнозируемый ROI"]
    success := true }

/-- The sample dict of _simulate_stress_load carries a load_factor entry in
addition to the projected parameters. -/
structure StressParams where
  load_factor : ℚ
  conveyor_speed : ℚ
  motor_temperature : ℚ
  vibration_level : ℚ
  motor_current : ℚ
  efficiency : ℚ
deriving DecidableEq

/-- ConveyorSimulator._simulate_stress_load.  The source reads
base_params with the key conveyor_speed, but the copied state dict only has
current_speed, so every call fails with a KeyError (`none`). -/
def simulateStressLoad (b : OperationalParameters) (load_factor : ℚ) : Option StressParams :=
  match getParam b "conveyor_speed" with
  | none => none
  | some v =>
    some { load_factor := load_factor
           conveyor_speed := v * load_factor
           motor_temperature := b.motor_temperature * (1 + 0.5 * load_factor)
           vibration_level := b.vibration_level * (1 + 0.8 * load_factor)
           motor_current := b.motor_current * load_factor
           efficiency := b.efficiency * (1 - 0.2 * max 0 (load_factor - 1)) }

/-- np.linspace(0, duration, 10). -/
def timePoints (d : ℚ) : List ℚ := (List.range 10).map (fun i => (i : ℚ) * d / 9)

/-- The per-sample load factor of run_stress_test:
min(1.0, time_point / duration_minutes * 1.5). -/
def loadFactor (d t : ℚ) : ℚ := min 1 (t / d * 1.5)

/-- The sampling loop of run_stress_test: each sample is appended, then the
loop stops at the first critical breach (recording a warning); a KeyError
from _simulate_stress_load aborts the whole call. -/
def stressLoop (b : OperationalParameters) (d : ℚ) :
    List ℚ → List StressParams → List String → Option (List StressParams × List String)
  | [], acc, ws => some (acc, ws)
  | t :: ts, acc, ws =>
    match simulateStressLoad b (loadFactor d t) with
    | none => none
    | some sp =>
      if sp.motor_temperature > temperature_critical ∨
          sp.vibration_level > vibration_critical then
        some (acc ++ [sp], ws ++ ["Критические параметры достигнуты"])
      else stressLoop b d ts (acc ++ [sp]) ws

/-- ConveyorSimulator._find_max_parameters (minimum for efficiency). -/
def findMaxParameters : List StressParams → Option StressParams
  | [] => none
  | r :: rs =>
    some (rs.foldl (fun m x =>
      { load_factor := max m.load_factor x.load_factor
        conveyor_speed := max m.conveyor_speed x.conveyor_speed
        motor_temperature := max m.motor_temperature x.motor_temperature
        vibration_level := max m.vibration_level x.vibration_level
        motor_current := max m.motor_current x.motor_current
        efficiency := min m.efficiency x.efficiency }) r)

/-- ConveyorSimulator.run_stress_test. -/
def runStressTest (duration_minutes : ℚ) (b : OperationalParameters) :
    Option (SimResult StressParams) :=
  match stressLoop b duration_minutes (timePoints duration_minutes) [] [] with
  | none => none
  | some (results, warns) =>
    match findMaxParameters results with
    | none => none
    | some max_params =>
      let success := warns.isEmpty
      some { scenario_name := "stress_test"
             parameters := max_params
             warnings := warns
             recommendations :=
               if success then ["Система стабильна при нагрузке"]
               else ["Рекомендуется снизить максимальную рабочую нагрузку"]
             success := success }

/-! ### simulate_speed_increase

The projection takes non-integer real powers of the speed ratio, so this
pipeline is embedded over ℝ. -/

/-- The dict returned by _predict_parameters_for_speed (its speed key is
conveyor_speed). -/
structure SpeedPredictedParams where
  conveyor_speed : ℝ
  motor_temperature : ℝ
  vibration_level : ℝ
  motor_current : ℝ
  efficiency : ℝ

/-- ConveyorSimulator._predict_parameters_for_speed. -/
noncomputable def predictParametersForSpeed (target : ℝ) (b : OperationalParameters) :
    SpeedPredictedParams :=
  let sr : ℝ := target / max (b.current_speed : ℝ) 0.1
  { conveyor_speed := target
    motor_temperature := (b.motor_temperature : ℝ) * sr ^ (0.8 : ℝ)
    vibration_level := (b.vibration_level : ℝ) * sr ^ (1.2 : ℝ)
    motor_current := (b.motor_current : ℝ) * sr
    efficiency := (b.efficiency : ℝ) }

/-- ConveyorSimulator._calculate_efficiency_impact.  Its speed term reads
current with the key conveyor_speed, but current is the copy of the state
dict, whose speed key is current_speed: that read fails with a KeyError
(`none`). -/
noncomputable def calculateEfficiencyImpact (current : OperationalParameters)
    (predicted : SpeedPredictedParams) : Option ℝ :=
  match getParam current "conveyor_speed" with
  | none => none
  | some cs =>
    let temp_impact := max 0 (predicted.motor_temperature - (current.motor_temperature : ℝ)) * (-0.5)
    let vibration_impact := max 0 (predicted.vibration_level - (current.vibration_level : ℝ)) * (-2.0)
    let speed_impact := (predicted.conveyor_speed - (cs : ℝ)) * 0.1
    some (temp_impact + vibration_impact + speed_impact)

/-- ConveyorSimulator.simulate_speed_increase.  The configured
conveyor.max_speed is passed in (the spec requires it present at startup).
The KeyError raised inside _calculate_efficiency_impact propagates out of
the call before the max(60, ·) clamp of line 106 and before the history
append, so no result is ever produced. -/
noncomputable def simulateSpeedIncrease (maxSpeed target : ℝ)
    (b : OperationalParameters) : Option (SimResult SpeedPredictedParams) :=
  let current_params := b
  let predicted := predictParametersForSpeed target b
  let speedWarns : List String :=
    if target > maxSpeed then ["Целевая скорость превышает максимальную"] else []
  let success0 : Bool := if target > maxSpeed then false else true
  let tempWarns : List String :=
    if predicted.motor_temperature > (temperature_critical : ℝ) then
      ["Прогнозируемая температура двигателя критическая"]
    else if predicted.motor_temperature > (temperature_warning : ℝ) then
      ["Прогнозируемая температура двигателя высокая"]
    else []
  let tempRecs : List String :=
    if predicted.motor_temperature > (temperature_critical : ℝ) then
      ["Увеличить охлаждение двигателя перед увеличением скорости"]
    else []
  let success1 : Bool :=
    if predicted.motor_temperature > (temperature_critical : ℝ) then false else success0
  let vibWarns : List String :=
    if predicted.vibration_level > (vibration_critical : ℝ) then
      ["Прогнозируемый уровень вибрации критический"]
    else []
  let vibRecs : List String :=
    if predicted.vibration_level > (vibration_critical : ℝ) then
      ["Требуется балансировка оборудования перед увеличением скорости"]
    else []
  let success2 : Bool :=
    if predicted.vibration_level > (vibration_critical : ℝ) then false else success1
  match calculateEfficiencyImpact current_params predicted with
  | none => none
  | some efficiency_impact =>
    let projected :=
      { predicted with efficiency := max 60 ((current_params.efficiency : ℝ) + efficiency_impact) }
    let successRecs : List String :=
      if success2 then ["Скорость может быть увеличена", "Прогнозируемая эффективность"] else []
    some { scenario_name := "speed_increase"
           parameters := projected
           warnings := speedWarns ++ tempWarns ++ vibWarns
           recommendations := tempRecs ++ vibRecs ++ successRecs
           success := success2 }

/-! ### The simulator as a state machine over the live twin

Each method of ConveyorSimulator reads the live twin state, works on a copy
of its operational-parameter dict, and appends its result to the
simulator-owned history; a raised KeyError propagates before the append.
The live twin is part of the combined state so that the frame property is a
statement, not a convention. -/

inductive HistEntry where
  | op : SimResult OperationalParameters → HistEntry
  | speed : SimResult SpeedPredictedParams → HistEntry
  | stress : SimResult StressParams → HistEntry

structure SimulatorState where
  twin : TwinState
  history : List HistEntry

noncomputable def stepSpeedIncrease (maxSpeed target : ℝ) (st : SimulatorState) :
    SimulatorState :=
  match simulateSpeedIncrease maxSpeed target st.twin.params with
  | some r => { st with history := st.history ++ [HistEntry.speed r] }
  | none => st

def stepComponentFailure (component : String) (severity : ℚ) (st : SimulatorState) :
    SimulatorState :=
  match simulateComponentFailure component severity st.twin.params with
  | some r => { st with history := st.history ++ [HistEntry.op r] }
  | none => st

def stepWhatIf (cfg : ScenarioConfig) (st : SimulatorState) : SimulatorState :=
  { st with history := st.history ++ [HistEntry.op (simulateWhatIf cfg st.twin.params)] }

def stepMaintenanceImpact (maintenance_type : String) (duration_hours : ℚ)
    (st : SimulatorState) : SimulatorState :=
  { st with history :=
      st.history ++ [HistEntry.op (simulateMaintenanceImpact maintenance_type duration_hours st.twin.params)] }

def stepStressTest (duration_minutes : ℚ) (st : SimulatorState) : SimulatorState :=
  match runStressTest duration_minutes st.twin.params with
  | some r => { st with history := st.history ++ [HistEntry.stress r] }
  | none => st

/-! ### Theorems -/

/-- C1: for every previous twin state and every sensor snapshot (any
combination of present and missing readings), the efficiency after
update_state equals 100 minus the penalties max(0, temp − 80)·0.5,
max(0, vib − 5)·2.0 and max(0, current − 15)·1.5, floored at 60, and
therefore lies in [60, 100]. -/
theorem twin_update_efficiency_formula (t : TwinState) (s : SensorSnapshot) :
    (updateState t s).params.efficiency
      = max 60 (100 - max 0 (s.motor_temperature.getD 0 - 80) * 0.5
                    - max 0 (s.vibration_level.getD 0 - 5) * 2.0
                    - max 0 (s.motor_current.getD 0 - 15) * 1.5)
    ∧ 60 ≤ (updateState t s).params.efficiency
    ∧ (updateState t s).params.efficiency ≤ 100 := by
  refine ⟨?_, ?_, ?_⟩
  · simp only [updateState, updateStatistics, calculateEfficiency,
      temperature_warning, vibration_warning, current_warning]
    congr 1
    simp only [max_def]
    split_ifs <;> linarith
  · simp only [updateState, updateStatistics, calculateEfficiency]
    exact le_max_left _ _
  · simp only [updateState, updateStatistics, calculateEfficiency,
      temperature_warning, vibration_warning, current_warning]
    refine max_le (by norm_num) ?_
    split_ifs <;> linarith

/-- C6: whenever the post-update state has motor temperature above the
critical threshold, vibration at or below the warning threshold and
efficiency at least 75, the rebuilt active alert list is exactly one
CRITICAL_TEMPERATURE alert of severity HIGH. -/
theorem single_critical_temperature_alert (t : TwinState) (s : SensorSnapshot)
    (h1 : temperature_critical < (updateState t s).params.motor_temperature)
    (h2 : (updateState t s).params.vibration_level ≤ vibration_warning)
    (h3 : 75 ≤ (updateState t s).params.efficiency) :
    (updateState t s).alerts = [{ type := "CRITICAL_TEMPERATURE", severity := "HIGH" }] := by
  simp only [updateState, updateStatistics, calculateEfficiency, checkAnomalies,
    temperature_warning, vibration_warning, temperature_critical,
    vibration_critical] at h1 h2 h3 ⊢
  rw [if_pos h1, if_neg (not_lt.mpr (h2.trans (by norm_num))), if_neg (not_lt.mpr h3)]
  rfl

/-- C6 witness: a concrete snapshot with motor temperature 91 satisfies the
hypotheses and yields exactly the single critical-temperature alert. -/
theorem single_critical_temperature_alert_witness :
    temperature_critical
        < (updateState initialTwin { motor_temperature := some 91 }).params.motor_temperature
    ∧ (updateState initialTwin { motor_temperature := some 91 }).params.vibration_level
        ≤ vibration_warning
    ∧ 75 ≤ (updateState initialTwin { motor_temperature := some 91 }).params.efficiency
    ∧ (updateState initialTwin { motor_temperature := some 91 }).alerts
        = [{ type := "CRITICAL_TEMPERATURE", severity := "HIGH" }] :=
  ⟨by decide, by decide,
    by norm_num [updateState, updateStatistics, calculateEfficiency, initialTwin,
      initialParameters, temperature_warning, vibration_warning, current_warning, max_def],
    single_critical_temperature_alert initialTwin { motor_temperature := some 91 }
      (by decide) (by decide)
      (by norm_num [updateState, updateStatistics, calculateEfficiency, initialTwin,
        initialParameters, temperature_warning, vibration_warning, current_warning, max_def])⟩

/-- C10: after any update_state call the active alert list has at most one
alert of each of the three types (hence at most three alerts), and every
produced severity is HIGH or MEDIUM. -/
theorem alerts_at_most_one_per_type (t : TwinState) (s : SensorSnapshot) :
    (((updateState t s).alerts.filter (fun a => a.type == "CRITICAL_TEMPERATURE")).length ≤ 1
      ∧ ((updateState t s).alerts.filter (fun a => a.type == "HIGH_VIBRATION")).length ≤ 1
      ∧ ((updateState t s).alerts.filter (fun a => a.type == "LOW_EFFICIENCY")).length ≤ 1)
    ∧ (updateState t s).alerts.length ≤ 3
    ∧ ∀ a ∈ (updateState t s).alerts, a.severity = "HIGH" ∨ a.severity = "MEDIUM" := by
  simp only [updateState, checkAnomalies]
  split_ifs <;> decide

/-- C2: contrary to the claim, _calculate_performance divides by
current_speed before applying the 0.1 floor, so a state with
current_speed = 0 makes the performance computation (and hence
calculate_oee) fail with a ZeroDivisionError instead of completing. -/
theorem oee_zero_speed_undefined (t : TwinState) (h : t.params.current_speed = 0) :
    calculatePerformance t.params = none ∧ calculateOEE t = none := by
  constructor
  · simp [calculatePerformance, h]
  · simp [calculateOEE, calculatePerformance, h]

/-- C2 witness: the initial state has speed 0 and the OEE computation
fails on it. -/
theorem oee_zero_speed_undefined_witness :
    initialTwin.params.current_speed = 0 ∧ calculateOEE initialTwin = none :=
  ⟨rfl, (oee_zero_speed_undefined initialTwin rfl).2⟩

/-- C8: with fewer data points than the window, trend_analysis returns
INSUFFICIENT_DATA regardless of the values. -/
theorem trend_analysis_insufficient_data (dataPoints : List ℚ) (window : Nat)
    (h : dataPoints.length < window) :
    trendAnalysis dataPoints window = "INSUFFICIENT_DATA" := by
  simp [trendAnalysis, h]

/-- C8 witness: three points against the default window of ten. -/
theorem trend_analysis_insufficient_data_witness :
    ([(1 : ℚ), 5, 9].length < 10)
    ∧ trendAnalysis [(1 : ℚ), 5, 9] 10 = "INSUFFICIENT_DATA" :=
  ⟨by decide, trend_analysis_insufficient_data [(1 : ℚ), 5, 9] 10 (by decide)⟩

/-- C3: simulate_component_failure returns success = false for the motor,
bearing and sensor components and is deterministic, but the controller
branch indexes the state dict with the absent key conveyor_speed and so
fails with a KeyError instead of returning a result. -/
theorem component_failure_never_succeeds (severity : ℚ) (b : OperationalParameters) :
    ((simulateComponentFailure "motor" severity b).map (fun r => r.success) = some false)
    ∧ ((simulateComponentFailure "bearing" severity b).map (fun r => r.success) = some false)
    ∧ ((simulateComponentFailure "sensor" severity b).map (fun r => r.success) = some false)
    ∧ simulateComponentFailure "controller" severity b = none
    ∧ ∀ component : String,
        simulateComponentFailure component severity b
          = simulateComponentFailure component severity b :=
  ⟨rfl, rfl, rfl, rfl, fun _ => rfl⟩

/-- C4: contrary to the claim, run_stress_test always aborts with a
KeyError (the sample projection reads the absent key conveyor_speed), and
its load factor is clamped by min(1.0, ·) so that no sample — in
particular not the last one, taken at time_point = duration — ever reaches
a load factor of 1.5. -/
theorem stress_test_crashes_and_load_capped :
    (∀ (d : ℚ) (b : OperationalParameters), runStressTest d b = none)
    ∧ (∀ d t : ℚ, loadFactor d t ≤ 1)
    ∧ (∀ d : ℚ, d ≠ 0 → loadFactor d d = 1)
    ∧ (∀ d : ℚ, (timePoints d).getLast? = some (((9 : ℕ) : ℚ) * d / 9)) := by
  refine ⟨fun d b => rfl, fun d t => min_le_left _ _, fun d hd => ?_, fun d => rfl⟩
  unfold loadFactor
  rw [div_self hd, show (1 : ℚ) * 1.5 = 1.5 by norm_num]
  exact min_eq_left (by norm_num)

/-- C4 witness: a concrete stress test of 30 minutes fails, and its final
sample would have had load factor 1, not 1.5. -/
theorem stress_test_crashes_and_load_capped_witness :
    runStressTest 30 initialParameters = none
    ∧ ((30 : ℚ) ≠ 0 ∧ loadFactor 30 30 = 1) :=
  ⟨stress_test_crashes_and_load_capped.1 30 initialParameters,
    by norm_num, stress_test_crashes_and_load_capped.2.2.1 30 (by norm_num)⟩

/-- C9: a changes entry of a what-if scenario whose key is not a key of the
operational-state dict (such as conveyor_speed, the key that
create_scenario_template emits, while the state key is current_speed) is
silently skipped: the simulation result is identical to the one without
that entry — no failure, no warning, and the baseline parameter survives
untouched into the degradation step. -/
theorem what_if_ignores_unknown_key (b : OperationalParameters) (cfg : ScenarioConfig)
    (k : String) (v : ℚ) (h : hasParamKey k = false) :
    applyChanges b ((k, v) :: cfg.changes) = applyChanges b cfg.changes
    ∧ simulateWhatIf { cfg with changes := (k, v) :: cfg.changes } b = simulateWhatIf cfg b := by
  have h1 : applyChanges b ((k, v) :: cfg.changes) = applyChanges b cfg.changes := by
    simp [applyChanges, h]
  exact ⟨h1, by simp [simulateWhatIf, h1]⟩

/-- C9 witness: overriding conveyor_speed (the template key) changes
nothing relative to an empty change set. -/
theorem what_if_ignores_unknown_key_witness :
    hasParamKey "conveyor_speed" = false
    ∧ simulateWhatIf { name := none, changes := [("conveyor_speed", 3)], duration_hours := none }
          initialParameters
        = simulateWhatIf { name := none, changes := [], duration_hours := none }
          initialParameters :=
  ⟨by decide,
    (what_if_ignores_unknown_key initialParameters
      { name := none, changes := [], duration_hours := none }
      "conveyor_speed" 3 (by decide)).2⟩

/-- C7: every simulator method leaves the live twin — its operational
parameters, alerts and operating mode — exactly as it was, whether it
returns a result or aborts with a KeyError. -/
theorem simulator_steps_preserve_twin (st : SimulatorState) (maxSpeed target : ℝ)
    (component : String) (severity : ℚ) (cfg : ScenarioConfig)
    (maintenance_type : String) (duration_hours duration_minutes : ℚ) :
    (stepSpeedIncrease maxSpeed target st).twin = st.twin
    ∧ (stepComponentFailure component severity st).twin = st.twin
    ∧ (stepWhatIf cfg st).twin = st.twin
    ∧ (stepMaintenanceImpact maintenance_type duration_hours st).twin = st.twin
    ∧ (stepStressTest duration_minutes st).twin = st.twin := by
  refine ⟨?_, ?_, rfl, rfl, ?_⟩
  · unfold stepSpeedIncrease
    cases simulateSpeedIncrease maxSpeed target st.twin.params <;> rfl
  · unfold stepComponentFailure
    cases simulateComponentFailure component severity st.twin.params <;> rfl
  · unfold stepStressTest
    cases runStressTest duration_minutes st.twin.params <;> rfl

/-- C5: contrary to the claim, simulate_speed_increase never returns any
parameter set at all: _calculate_efficiency_impact reads the baseline copy
with the key conveyor_speed (src/iot/simulation.py line 378) while the
copied state dict is keyed current_speed, so every call — for every
baseline state and every target speed — aborts with a KeyError before the
efficiency assignment of line 106 is reached. -/
theorem speed_increase_always_keyerror (maxSpeed target : ℝ) (b : OperationalParameters) :
    calculateEfficiencyImpact b (predictParametersForSpeed target b) = none
    ∧ simulateSpeedIncrease maxSpeed target b = none :=
  ⟨rfl, rfl⟩

end KafConvey
